import Mathlib

/-!
Shallow embedding of the wineSVG repository: the unix-side librsvg/cairo
bridge (`unnamed/part_000`: `load_librsvg`, `load_cairo`, `rsvg_create_handle`,
`rsvg_free_handle`, `rsvg_render`) and the PE-side COM wrapper
(`dlls/d2d1/svg.c`: `d2d_svg_document_AddRef`, `d2d_svg_document_Release`,
`d2d_svg_document_create`).

Pointers that only matter as null/non-null are modelled as `Bool`
(true = non-null).  C `double` values are modelled as exact rationals `ℚ`;
every concrete input used below is exactly representable, and the branch
conditions of the source coincide with their rational reading on those
inputs.  Calls into the native libraries (and the dlopen/dlclose events of
the loader) are recorded in an explicit trace list, in program order.
-/

namespace WineSVG

/-- NT status codes returned by the unix-side handlers. -/
inductive NTSTATUS
  | STATUS_SUCCESS
  | STATUS_INVALID_PARAMETER
  | STATUS_NOT_SUPPORTED
  | STATUS_UNSUCCESSFUL
deriving DecidableEq, Repr

/-- HRESULT values returned by the PE-side COM code. -/
inductive HRESULT
  | S_OK
  | E_NOTIMPL
  | E_FAIL
  | E_OUTOFMEMORY
  | E_NOINTERFACE
deriving DecidableEq, Repr

/-- Events crossing into the native libraries (plus loader dlopen/dlclose). -/
inductive NativeCall
  | dlopenRsvg
  | dlcloseRsvg
  | dlopenCairo
  | dlcloseCairo
  | rsvg_handle_new_from_data
  | g_error_free
  | g_object_unref
  | rsvg_handle_render_document
  | cairo_image_surface_create_for_data
  | cairo_create
  | cairo_destroy
  | cairo_surface_destroy
  | cairo_scale
deriving DecidableEq, Repr

/-- What the dynamic-linking environment would answer: does each dlopen
succeed, and does each dlsym return a non-null pointer. -/
structure Env where
  rsvg_dlopen_ok : Bool
  sym_rsvg_handle_new_from_data : Bool
  sym_g_object_unref : Bool
  sym_g_error_free : Bool
  sym_rsvg_handle_render_document : Bool
  cairo_dlopen_ok : Bool
  sym_cairo_image_surface_create_for_data : Bool
  sym_cairo_create : Bool
  sym_cairo_destroy : Bool
  sym_cairo_surface_destroy : Bool
  sym_cairo_scale : Bool
deriving DecidableEq, Repr

/-- The file-static loader state: library handles and cached symbols,
each recorded as null (false) or non-null (true). -/
structure LoaderState where
  librsvg_so : Bool
  p_rsvg_handle_new_from_data : Bool
  p_g_object_unref : Bool
  p_g_error_free : Bool
  p_rsvg_handle_render_document : Bool
  libcairo : Bool
  p_cairo_image_surface_create_for_data : Bool
  p_cairo_create : Bool
  p_cairo_destroy : Bool
  p_cairo_surface_destroy : Bool
  p_cairo_scale : Bool
deriving DecidableEq, Repr

/-- The process-start state: no library loaded, every symbol null. -/
def initialLoaderState : LoaderState :=
  { librsvg_so := false
    p_rsvg_handle_new_from_data := false
    p_g_object_unref := false
    p_g_error_free := false
    p_rsvg_handle_render_document := false
    libcairo := false
    p_cairo_image_surface_create_for_data := false
    p_cairo_create := false
    p_cairo_destroy := false
    p_cairo_surface_destroy := false
    p_cairo_scale := false }

/-- `load_librsvg` from `unnamed/part_000`: returns TRUE immediately if the
handle is cached; otherwise dlopens librsvg, binds the four symbols, and on
any missing symbol dlcloses and nulls the handle (the symbol slots keep
whatever dlsym returned). -/
def load_librsvg (env : Env) (s : LoaderState) :
    Bool × LoaderState × List NativeCall :=
  if s.librsvg_so then (true, s, [])
  else if !env.rsvg_dlopen_ok then (false, s, [NativeCall.dlopenRsvg])
  else
    let s1 : LoaderState :=
      { s with
        librsvg_so := true
        p_rsvg_handle_new_from_data := env.sym_rsvg_handle_new_from_data
        p_g_object_unref := env.sym_g_object_unref
        p_g_error_free := env.sym_g_error_free
        p_rsvg_handle_render_document := env.sym_rsvg_handle_render_document }
    if !s1.p_rsvg_handle_new_from_data || !s1.p_g_object_unref
        || !s1.p_g_error_free || !s1.p_rsvg_handle_render_document then
      (false, { s1 with librsvg_so := false },
        [NativeCall.dlopenRsvg, NativeCall.dlcloseRsvg])
    else (true, s1, [NativeCall.dlopenRsvg])

/-- `load_cairo` from `unnamed/part_000`: dlopens libcairo and binds five
symbols, but its failure check only tests `p_cairo_image_surface_create_for_data`
and `p_cairo_create` — exactly as the source does. -/
def load_cairo (env : Env) (s : LoaderState) :
    Bool × LoaderState × List NativeCall :=
  if s.libcairo then (true, s, [])
  else if !env.cairo_dlopen_ok then (false, s, [NativeCall.dlopenCairo])
  else
    let s1 : LoaderState :=
      { s with
        libcairo := true
        p_cairo_image_surface_create_for_data := env.sym_cairo_image_surface_create_for_data
        p_cairo_create := env.sym_cairo_create
        p_cairo_destroy := env.sym_cairo_destroy
        p_cairo_surface_destroy := env.sym_cairo_surface_destroy
        p_cairo_scale := env.sym_cairo_scale }
    if !s1.p_cairo_image_surface_create_for_data || !s1.p_cairo_create then
      (false, { s1 with libcairo := false },
        [NativeCall.dlopenCairo, NativeCall.dlcloseCairo])
    else (true, s1, [NativeCall.dlopenCairo])

/-- Input block for `rsvg_render` (`struct rsvg_render_params`):
`handle`/`pixels` as null/non-null, viewport doubles as exact rationals,
bitmap dimensions as naturals (the source only zero-tests them and casts
them to double for the scale division). -/
structure RenderParams where
  handle : Bool
  pixels : Bool
  svg_width : ℚ
  svg_height : ℚ
  width : ℕ
  height : ℕ
  stride : ℕ
deriving DecidableEq, Repr

/-- Behaviour of the native calls made inside `rsvg_render`: the loader
environment plus whether `cairo_image_surface_create_for_data` and
`cairo_create` return non-null. -/
structure RenderEnv where
  env : Env
  surface_ok : Bool
  cr_ok : Bool
deriving DecidableEq, Repr

/-- Outcome of one `rsvg_render` invocation: the returned status, the
loader state after the call, the native-call trace in program order, and
whether the trailing `fninit` (x87 reset) executed. -/
structure RenderResult where
  ret : NTSTATUS
  state : LoaderState
  calls : List NativeCall
  fninit : Bool
deriving DecidableEq, Repr

/-- The `done:` label of `rsvg_render`: destroy the context if the local
`cr` is non-null, then destroy the surface if the local `surface` is
non-null, then execute `fninit` and return. -/
def render_done (ret : NTSTATUS) (s : LoaderState) (cr surface : Bool)
    (calls : List NativeCall) : RenderResult :=
  let calls := if cr then calls ++ [NativeCall.cairo_destroy] else calls
  let calls := if surface then calls ++ [NativeCall.cairo_surface_destroy] else calls
  { ret := ret, state := s, calls := calls, fninit := true }

/-- `rsvg_render` from `unnamed/part_000`, gate for gate: null checks,
the `svg_width <= 0.01 && svg_height <= 0.01` viewport check, the zero
width/height/stride check, both library loads, the render-symbol check,
surface creation, context creation (on failure the source destroys the
surface inline and then again at `done:`, since the local `surface` is not
nulled), the scale-range check, and finally scale plus render. -/
def rsvg_render (renv : RenderEnv) (s0 : LoaderState) (p : RenderParams) :
    RenderResult :=
  if !p.handle || !p.pixels then
    render_done NTSTATUS.STATUS_INVALID_PARAMETER s0 false false []
  else if p.svg_width ≤ 1/100 ∧ p.svg_height ≤ 1/100 then
    render_done NTSTATUS.STATUS_INVALID_PARAMETER s0 false false []
  else if p.width = 0 ∨ p.height = 0 ∨ p.stride = 0 then
    render_done NTSTATUS.STATUS_INVALID_PARAMETER s0 false false []
  else
    let (ok1, s1, t1) := load_librsvg renv.env s0
    if !ok1 then render_done NTSTATUS.STATUS_NOT_SUPPORTED s1 false false t1
    else
      let (ok2, s2, t2) := load_cairo renv.env s1
      if !ok2 then render_done NTSTATUS.STATUS_NOT_SUPPORTED s2 false false (t1 ++ t2)
      else if !s2.p_rsvg_handle_render_document then
        render_done NTSTATUS.STATUS_NOT_SUPPORTED s2 false false (t1 ++ t2)
      else
        let calls := t1 ++ t2 ++ [NativeCall.cairo_image_surface_create_for_data]
        if !renv.surface_ok then
          render_done NTSTATUS.STATUS_UNSUCCESSFUL s2 false false calls
        else
          let calls := calls ++ [NativeCall.cairo_create]
          if !renv.cr_ok then
            render_done NTSTATUS.STATUS_UNSUCCESSFUL s2 false true
              (calls ++ [NativeCall.cairo_surface_destroy])
          else
            let scale_x : ℚ := (p.width : ℚ) / p.svg_width
            let scale_y : ℚ := (p.height : ℚ) / p.svg_height
            if scale_x ≤ 0 ∨ scale_x > 1000 ∨ scale_y ≤ 0 ∨ scale_y > 1000 then
              render_done NTSTATUS.STATUS_INVALID_PARAMETER s2 true true calls
            else
              render_done NTSTATUS.STATUS_SUCCESS s2 true true
                (calls ++ [NativeCall.cairo_scale, NativeCall.rsvg_handle_render_document])

/-- Behaviour of the native parse inside `rsvg_create_handle`: whether
`rsvg_handle_new_from_data` returns a non-null handle, and whether it set
the GError out-parameter. -/
structure CreateEnvU where
  env : Env
  parse_ok : Bool
  parse_error_set : Bool
deriving DecidableEq, Repr

/-- Outcome of `rsvg_create_handle`: the status, the out `params->handle`
(null/non-null), the loader state after the call, and the trace. -/
structure CreateResultU where
  status : NTSTATUS
  handle : Bool
  state : LoaderState
  calls : List NativeCall
deriving DecidableEq, Repr

/-- `rsvg_create_handle` from `unnamed/part_000`: nulls the out handle,
ensures librsvg is loaded, calls the parser, and on a null handle frees
the GError (if set) and reports `STATUS_UNSUCCESSFUL`. -/
def rsvg_create_handle (ce : CreateEnvU) (s : LoaderState) : CreateResultU :=
  let (ok, s1, t1) := load_librsvg ce.env s
  if !ok then
    { status := NTSTATUS.STATUS_NOT_SUPPORTED, handle := false, state := s1, calls := t1 }
  else
    let calls := t1 ++ [NativeCall.rsvg_handle_new_from_data]
    if !ce.parse_ok then
      { status := NTSTATUS.STATUS_UNSUCCESSFUL, handle := false, state := s1
        calls := calls ++ if ce.parse_error_set then [NativeCall.g_error_free] else [] }
    else
      { status := NTSTATUS.STATUS_SUCCESS, handle := true, state := s1, calls := calls }

/-- `rsvg_free_handle` from `unnamed/part_000`: calls `g_object_unref`
only when the handle is non-null and the symbol is bound, and always
returns `STATUS_SUCCESS`. -/
def rsvg_free_handle (s : LoaderState) (handle : Bool) :
    NTSTATUS × List NativeCall :=
  if handle && s.p_g_object_unref then
    (NTSTATUS.STATUS_SUCCESS, [NativeCall.g_object_unref])
  else (NTSTATUS.STATUS_SUCCESS, [])

/-- The PE-side `struct d2d_svg_document`, reduced to the fields the claims
touch: the interlocked reference count, and whether `rsvg_handle` and
`factory` are non-null. -/
structure Document where
  refcount : ℕ
  rsvg_handle : Bool
  factory : Bool
deriving DecidableEq, Repr

/-- `d2d_svg_document_AddRef`: interlocked increment, returning the new
count and the updated object. -/
def d2d_svg_document_AddRef (d : Document) : ℕ × Document :=
  let refcount := d.refcount + 1
  (refcount, { d with refcount := refcount })

/-- Outcome of `d2d_svg_document_Release`: the returned (new) count, the
surviving object if any, and which teardown steps ran. -/
structure ReleaseResult where
  refcount : ℕ
  document : Option Document
  rsvg_free_called : Bool
  factory_released : Bool
  heap_freed : Bool
deriving DecidableEq, Repr

/-- `d2d_svg_document_Release`: interlocked decrement; on reaching zero it
issues the free command for a non-null handle when the unixlib is
available, releases a non-null factory reference, and frees the object. -/
def d2d_svg_document_Release (unixlib_handle : Bool) (d : Document) :
    ReleaseResult :=
  let refcount := d.refcount - 1
  if refcount = 0 then
    { refcount := 0, document := none
      rsvg_free_called := d.rsvg_handle && unixlib_handle
      factory_released := d.factory
      heap_freed := true }
  else
    { refcount := refcount, document := some { d with refcount := refcount }
      rsvg_free_called := false, factory_released := false, heap_freed := false }

/-- Iterated `d2d_svg_document_AddRef`, keeping only the object. -/
def addRefN (d : Document) : ℕ → Document
  | 0 => d
  | Nat.succ n => addRefN (d2d_svg_document_AddRef d).2 n

/-- Iterated `d2d_svg_document_Release`, counting how many of the calls
performed the final teardown (freed the object). -/
def releaseN (u : Bool) : Option Document → ℕ → ℕ
  | _, 0 => 0
  | none, Nat.succ _ => 0
  | some d, Nat.succ k =>
    let r := d2d_svg_document_Release u d
    (if r.heap_freed then 1 else 0) + releaseN u r.document k

/-- Environment for the PE-side `d2d_svg_document_create`: unixlib
availability, stream stat/read results, both heap allocations, and the
unix-side parse behaviour. -/
structure CreateEnv where
  unixlib_handle : Bool
  stat_ok : Bool
  buffer_alloc_ok : Bool
  read_ok : Bool
  unix : CreateEnvU
  object_alloc_ok : Bool
deriving DecidableEq, Repr

/-- Outcome of `d2d_svg_document_create`: the HRESULT, the out document,
the loader state and trace after the unix calls, and resource accounting
(stream buffer allocated/freed, native handle created/released). -/
structure PECreateResult where
  hr : HRESULT
  document : Option Document
  state : LoaderState
  calls : List NativeCall
  buffer_allocated : Bool
  buffer_freed : Bool
  handle_created : Bool
  handle_freed : Bool
deriving DecidableEq, Repr

/-- `d2d_svg_document_create` from `dlls/d2d1/svg.c`: checks the unixlib
handle, stats and reads the stream into a heap buffer, issues the create
command, frees the buffer, and on wrapper-allocation failure issues the
free command for the fresh native handle before returning
`E_OUTOFMEMORY`. -/
def d2d_svg_document_create (ce : CreateEnv) (s0 : LoaderState) : PECreateResult :=
  if !ce.unixlib_handle then
    { hr := HRESULT.E_NOTIMPL, document := none, state := s0, calls := []
      buffer_allocated := false, buffer_freed := false
      handle_created := false, handle_freed := false }
  else if !ce.stat_ok then
    { hr := HRESULT.E_FAIL, document := none, state := s0, calls := []
      buffer_allocated := false, buffer_freed := false
      handle_created := false, handle_freed := false }
  else if !ce.buffer_alloc_ok then
    { hr := HRESULT.E_OUTOFMEMORY, document := none, state := s0, calls := []
      buffer_allocated := false, buffer_freed := false
      handle_created := false, handle_freed := false }
  else if !ce.read_ok then
    { hr := HRESULT.E_FAIL, document := none, state := s0, calls := []
      buffer_allocated := true, buffer_freed := true
      handle_created := false, handle_freed := false }
  else
    let r := rsvg_create_handle ce.unix s0
    if r.status ≠ NTSTATUS.STATUS_SUCCESS then
      { hr := HRESULT.E_FAIL, document := none, state := r.state, calls := r.calls
        buffer_allocated := true, buffer_freed := true
        handle_created := r.handle, handle_freed := false }
    else if !ce.object_alloc_ok then
      let f := rsvg_free_handle r.state r.handle
      { hr := HRESULT.E_OUTOFMEMORY, document := none, state := r.state
        calls := r.calls ++ f.2
        buffer_allocated := true, buffer_freed := true
        handle_created := r.handle, handle_freed := true }
    else
      { hr := HRESULT.S_OK
        document := some { refcount := 1, rsvg_handle := r.handle, factory := true }
        state := r.state, calls := r.calls
        buffer_allocated := true, buffer_freed := true
        handle_created := r.handle, handle_freed := false }

/-- A dynamic-linking environment where both libraries and all symbols
resolve. -/
def fullEnv : Env :=
  { rsvg_dlopen_ok := true
    sym_rsvg_handle_new_from_data := true
    sym_g_object_unref := true
    sym_g_error_free := true
    sym_rsvg_handle_render_document := true
    cairo_dlopen_ok := true
    sym_cairo_image_surface_create_for_data := true
    sym_cairo_create := true
    sym_cairo_destroy := true
    sym_cairo_surface_destroy := true
    sym_cairo_scale := true }

/-- An environment where no dlopen succeeds (no symbol resolves either). -/
def emptyEnv : Env :=
  { rsvg_dlopen_ok := false
    sym_rsvg_handle_new_from_data := false
    sym_g_object_unref := false
    sym_g_error_free := false
    sym_rsvg_handle_render_document := false
    cairo_dlopen_ok := false
    sym_cairo_image_surface_create_for_data := false
    sym_cairo_create := false
    sym_cairo_destroy := false
    sym_cairo_surface_destroy := false
    sym_cairo_scale := false }

/-- A cairo installation where dlopen succeeds and the two symbols the
source actually checks resolve, but `cairo_destroy`,
`cairo_surface_destroy` and `cairo_scale` do not. -/
def cairoMissingSymsEnv : Env :=
  { fullEnv with
    sym_cairo_destroy := false
    sym_cairo_surface_destroy := false
    sym_cairo_scale := false }

/-- A render environment where everything succeeds. -/
def fullRenderEnv : RenderEnv := { env := fullEnv, surface_ok := true, cr_ok := true }

/-- A render environment where the libraries load and surface creation
succeeds but `cairo_create` returns null. -/
def crFailRenderEnv : RenderEnv := { env := fullEnv, surface_ok := true, cr_ok := false }

/-- A render environment where librsvg itself fails to dlopen. -/
def noLibRenderEnv : RenderEnv := { env := emptyEnv, surface_ok := true, cr_ok := true }

/-- A fully valid render request: 50x50 target, stride 200, viewport
100x100 (scales 1/2 and 1/2). -/
def validParams : RenderParams :=
  { handle := true, pixels := true, svg_width := 100, svg_height := 100
    width := 50, height := 50, stride := 200 }

/-- A request whose x-axis scale is 100 / (1/20) = 2000, outside (0,1000],
while every earlier gate passes. -/
def scaleOutParams : RenderParams :=
  { handle := true, pixels := true, svg_width := 1/20, svg_height := 100
    width := 100, height := 100, stride := 400 }

/-- A request with both viewport dimensions 0.0 (and non-null handle and
pixels). -/
def zeroViewportParams : RenderParams :=
  { handle := true, pixels := true, svg_width := 0, svg_height := 0
    width := 50, height := 50, stride := 200 }

/-- A request where only `svg_width` is degenerate (0.0) while
`svg_height` is 100.0. -/
def halfDegenerateParams : RenderParams :=
  { handle := true, pixels := true, svg_width := 0, svg_height := 100
    width := 50, height := 50, stride := 200 }

/-- A request whose handle is null while everything else is valid. -/
def nullHandleParams : RenderParams :=
  { handle := false, pixels := true, svg_width := 100, svg_height := 100
    width := 50, height := 50, stride := 200 }

/-- The loader state after librsvg alone has loaded from `fullEnv`. -/
def rsvgLoadedState : LoaderState :=
  { initialLoaderState with
    librsvg_so := true
    p_rsvg_handle_new_from_data := true
    p_g_object_unref := true
    p_g_error_free := true
    p_rsvg_handle_render_document := true }

/-- The loader state after both libraries have loaded from `fullEnv`. -/
def bothLoadedState : LoaderState :=
  { librsvg_so := true
    p_rsvg_handle_new_from_data := true
    p_g_object_unref := true
    p_g_error_free := true
    p_rsvg_handle_render_document := true
    libcairo := true
    p_cairo_image_surface_create_for_data := true
    p_cairo_create := true
    p_cairo_destroy := true
    p_cairo_surface_destroy := true
    p_cairo_scale := true }

/-- A freshly created document: refcount 1, non-null handle and factory. -/
def sampleDoc : Document := { refcount := 1, rsvg_handle := true, factory := true }

/-- A PE-create environment where everything succeeds except the native
parse, which fails and sets a GError. -/
def parseFailEnv : CreateEnv :=
  { unixlib_handle := true, stat_ok := true, buffer_alloc_ok := true, read_ok := true
    unix := { env := fullEnv, parse_ok := false, parse_error_set := true }
    object_alloc_ok := true }

/-- A PE-create environment where the parse succeeds but the wrapper
allocation fails. -/
def oomEnv : CreateEnv :=
  { unixlib_handle := true, stat_ok := true, buffer_alloc_ok := true, read_ok := true
    unix := { env := fullEnv, parse_ok := true, parse_error_set := false }
    object_alloc_ok := false }

/-- Loaded-librsvg symbol invariant: all four required parser symbols are
bound. -/
def rsvgSymbolsBound (s : LoaderState) : Prop :=
  s.p_rsvg_handle_new_from_data = true ∧ s.p_g_object_unref = true ∧
  s.p_g_error_free = true ∧ s.p_rsvg_handle_render_document = true

/-- State invariant assumed at entry: if librsvg is recorded as loaded,
its four symbols are bound (true of every state the program reaches). -/
def rsvgInv (s : LoaderState) : Prop :=
  s.librsvg_so = true → rsvgSymbolsBound s

instance (s : LoaderState) : Decidable (rsvgSymbolsBound s) := by
  unfold rsvgSymbolsBound; infer_instance

instance (s : LoaderState) : Decidable (rsvgInv s) := by
  unfold rsvgInv; infer_instance

end WineSVG

namespace WineSVG

/-! ## Helper lemmas -/

theorem render_done_fninit (r : NTSTATUS) (s : LoaderState) (cr surface : Bool)
    (calls : List NativeCall) : (render_done r s cr surface calls).fninit = true := rfl

theorem load_librsvg_trace_cases (env : Env) (s : LoaderState) :
    (load_librsvg env s).2.2 = [] ∨
    (load_librsvg env s).2.2 = [NativeCall.dlopenRsvg] ∨
    (load_librsvg env s).2.2 = [NativeCall.dlopenRsvg, NativeCall.dlcloseRsvg] := by
  unfold load_librsvg
  cases hso : s.librsvg_so <;>
    cases hok : env.rsvg_dlopen_ok <;>
    cases h1 : env.sym_rsvg_handle_new_from_data <;>
    cases h2 : env.sym_g_object_unref <;>
    cases h3 : env.sym_g_error_free <;>
    cases h4 : env.sym_rsvg_handle_render_document <;>
    simp [hso, hok, h1, h2, h3, h4]

theorem load_cairo_trace_cases (env : Env) (s : LoaderState) :
    (load_cairo env s).2.2 = [] ∨
    (load_cairo env s).2.2 = [NativeCall.dlopenCairo] ∨
    (load_cairo env s).2.2 = [NativeCall.dlopenCairo, NativeCall.dlcloseCairo] := by
  unfold load_cairo
  cases hso : s.libcairo <;>
    cases hok : env.cairo_dlopen_ok <;>
    cases h1 : env.sym_cairo_image_surface_create_for_data <;>
    cases h2 : env.sym_cairo_create <;>
    simp [hso, hok, h1, h2]

theorem mem_load_librsvg_trace (env : Env) (s : LoaderState) (c : NativeCall)
    (hc : c ∈ (load_librsvg env s).2.2) :
    c = NativeCall.dlopenRsvg ∨ c = NativeCall.dlcloseRsvg := by
  rcases load_librsvg_trace_cases env s with h | h | h <;> rw [h] at hc <;>
    simp at hc <;> tauto

theorem mem_load_cairo_trace (env : Env) (s : LoaderState) (c : NativeCall)
    (hc : c ∈ (load_cairo env s).2.2) :
    c = NativeCall.dlopenCairo ∨ c = NativeCall.dlcloseCairo := by
  rcases load_cairo_trace_cases env s with h | h | h <;> rw [h] at hc <;>
    simp at hc <;> tauto

theorem load_librsvg_success_bound (env : Env) (s : LoaderState)
    (hinv : rsvgInv s) (h : (load_librsvg env s).1 = true) :
    rsvgSymbolsBound (load_librsvg env s).2.1 := by
  unfold rsvgInv rsvgSymbolsBound at *
  unfold load_librsvg at *
  cases hso : s.librsvg_so <;>
    cases hok : env.rsvg_dlopen_ok <;>
    cases h1 : env.sym_rsvg_handle_new_from_data <;>
    cases h2 : env.sym_g_object_unref <;>
    cases h3 : env.sym_g_error_free <;>
    cases h4 : env.sym_rsvg_handle_render_document <;>
    simp_all

/-- Evaluation of `load_librsvg` in the all-good environment from the
fresh state. -/
theorem load_librsvg_full_eval :
    load_librsvg fullEnv initialLoaderState =
      (true, rsvgLoadedState, [NativeCall.dlopenRsvg]) := by decide

/-- Evaluation of `load_cairo` in the all-good environment after librsvg
loaded. -/
theorem load_cairo_full_eval :
    load_cairo fullEnv rsvgLoadedState =
      (true, bothLoadedState, [NativeCall.dlopenCairo]) := by decide

/-- The viewport gate does not fire for `scaleOutParams`. -/
theorem scaleOutParams_viewport_passes :
    ¬(scaleOutParams.svg_width ≤ 1/100 ∧ scaleOutParams.svg_height ≤ 1/100) := by
  norm_num [scaleOutParams]

/-- The x-axis scale of `scaleOutParams` is 2000, outside (0, 1000]. -/
theorem scaleOutParams_scale_x_out :
    ((scaleOutParams.width : ℚ) / scaleOutParams.svg_width > 1000) := by
  norm_num [scaleOutParams]

/-- Both viewport components of `zeroViewportParams` are below 0.01. -/
theorem zeroViewportParams_below_threshold :
    zeroViewportParams.svg_width ≤ 1/100 ∧ zeroViewportParams.svg_height ≤ 1/100 := by
  norm_num [zeroViewportParams]

/-! ## Claim theorems -/

/-- C2 (code_bug): with libcairo present and the two checked symbols
resolving but `cairo_destroy`, `cairo_surface_destroy` and `cairo_scale`
unresolvable, `load_cairo` nevertheless reports success and leaves the
library loaded with three of its five required symbols null — the load
does not fail as the claim requires, and the loaded-state invariant is
violated. -/
theorem load_cairo_missing_required_symbols_still_succeeds :
    (load_cairo cairoMissingSymsEnv initialLoaderState).1 = true ∧
    (load_cairo cairoMissingSymsEnv initialLoaderState).2.1.libcairo = true ∧
    (load_cairo cairoMissingSymsEnv initialLoaderState).2.1.p_cairo_destroy = false ∧
    (load_cairo cairoMissingSymsEnv initialLoaderState).2.1.p_cairo_surface_destroy = false ∧
    (load_cairo cairoMissingSymsEnv initialLoaderState).2.1.p_cairo_scale = false := by
  decide

/-- C3 (code_bug): when surface creation succeeds and context creation
fails, `rsvg_render` destroys the surface twice — once inline at the
failed `cairo_create` and once again at `done:`, because the local
`surface` variable is not nulled — contradicting the at-most-once
teardown the claim states. -/
theorem rsvg_render_context_fail_destroys_surface_twice :
    (rsvg_render crFailRenderEnv initialLoaderState validParams).calls =
      [NativeCall.dlopenRsvg, NativeCall.dlopenCairo,
       NativeCall.cairo_image_surface_create_for_data, NativeCall.cairo_create,
       NativeCall.cairo_surface_destroy, NativeCall.cairo_surface_destroy] ∧
    (rsvg_render crFailRenderEnv initialLoaderState validParams).ret =
      NTSTATUS.STATUS_UNSUCCESSFUL := by
  norm_num [rsvg_render, render_done, load_librsvg, load_cairo, validParams,
    crFailRenderEnv, fullEnv, initialLoaderState]

/-- C5 (confirmed): every exit path of `rsvg_render` — every validation
failure, load failure, surface/context failure, and success — executes
the trailing `fninit`, resetting the floating-point state. -/
theorem rsvg_render_always_resets_fpu (renv : RenderEnv) (s : LoaderState)
    (p : RenderParams) : (rsvg_render renv s p).fninit = true := by
  unfold rsvg_render
  repeat'
    first
      | apply render_done_fninit
      | split
      | dsimp only

/-- C7 (confirmed): `load_librsvg` is idempotent — when the handle is
cached it returns success with the state untouched and no dlopen — and
failure-recoverable: any failing call leaves the handle null
(loaded=false), and from a not-loaded state a good environment loads
successfully, so failures are never cached permanently. -/
theorem load_librsvg_idempotent_and_recoverable (env : Env) (s : LoaderState) :
    (s.librsvg_so = true → load_librsvg env s = (true, s, [])) ∧
    ((load_librsvg env s).1 = false → (load_librsvg env s).2.1.librsvg_so = false) ∧
    (s.librsvg_so = false → env.rsvg_dlopen_ok = true →
      env.sym_rsvg_handle_new_from_data = true → env.sym_g_object_unref = true →
      env.sym_g_error_free = true → env.sym_rsvg_handle_render_document = true →
      (load_librsvg env s).1 = true ∧ (load_librsvg env s).2.1.librsvg_so = true) := by
  refine ⟨?_, ?_, ?_⟩
  · intro h
    simp [load_librsvg, h]
  · unfold load_librsvg
    cases hso : s.librsvg_so <;>
      cases hok : env.rsvg_dlopen_ok <;>
      cases h1 : env.sym_rsvg_handle_new_from_data <;>
      cases h2 : env.sym_g_object_unref <;>
      cases h3 : env.sym_g_error_free <;>
      cases h4 : env.sym_rsvg_handle_render_document <;>
      simp_all
  · intro hso hok h1 h2 h3 h4
    simp [load_librsvg, hso, hok, h1, h2, h3, h4]

/-- C7 witness: from the fresh state in the all-good environment, a load
succeeds and marks the library loaded. -/
theorem load_librsvg_idempotent_and_recoverable_witness :
    (load_librsvg fullEnv initialLoaderState).1 = true ∧
    (load_librsvg fullEnv initialLoaderState).2.1.librsvg_so = true :=
  (load_librsvg_idempotent_and_recoverable fullEnv initialLoaderState).2.2
    rfl rfl rfl rfl rfl rfl

/-- C9 (confirmed): a null handle or null pixel buffer makes
`rsvg_render` return `STATUS_INVALID_PARAMETER` with an empty native-call
trace and the loader state untouched, whatever all other fields are —
the null check is the first gate, before any other validation, library
load, or native call. -/
theorem rsvg_render_null_gate_first (renv : RenderEnv) (s : LoaderState)
    (p : RenderParams) (h : p.handle = false ∨ p.pixels = false) :
    rsvg_render renv s p =
      { ret := NTSTATUS.STATUS_INVALID_PARAMETER, state := s, calls := []
        fninit := true } := by
  rcases h with h | h <;> simp [rsvg_render, render_done, h]

/-- C9 witness: a null handle with otherwise valid fields is rejected
with no native calls and no load. -/
theorem rsvg_render_null_gate_first_witness :
    rsvg_render fullRenderEnv initialLoaderState nullHandleParams =
      { ret := NTSTATUS.STATUS_INVALID_PARAMETER, state := initialLoaderState
        calls := [], fninit := true } :=
  rsvg_render_null_gate_first fullRenderEnv initialLoaderState nullHandleParams
    (Or.inl rfl)

/-- C10 (confirmed): `rsvg_free_handle` returns `STATUS_SUCCESS` on every
input, and performs no native call when the handle is null or the unref
symbol was never bound. -/
theorem rsvg_free_handle_always_succeeds (s : LoaderState) (handle : Bool) :
    (rsvg_free_handle s handle).1 = NTSTATUS.STATUS_SUCCESS ∧
    ((handle = false ∨ s.p_g_object_unref = false) →
      (rsvg_free_handle s handle).2 = []) := by
  constructor
  · unfold rsvg_free_handle
    split <;> rfl
  · intro hc
    rcases hc with hc | hc <;> simp [rsvg_free_handle, hc]

/-- C10 witness: freeing a null handle from the fresh state reports
success with no native call. -/
theorem rsvg_free_handle_always_succeeds_witness :
    (rsvg_free_handle initialLoaderState false).1 = NTSTATUS.STATUS_SUCCESS ∧
    (rsvg_free_handle initialLoaderState false).2 = [] :=
  ⟨(rsvg_free_handle_always_succeeds initialLoaderState false).1,
   (rsvg_free_handle_always_succeeds initialLoaderState false).2 (Or.inl rfl)⟩

/-- C8 counterexample: `halfDegenerateParams` has `svg_width = 0.0`, so
its viewport dimensions do not each exceed the 0.01 threshold, yet with
librsvg unavailable `rsvg_render` returns `STATUS_NOT_SUPPORTED`, not
`STATUS_INVALID_PARAMETER`: the source gate fires only when BOTH
dimensions are at or below the threshold. -/
theorem rsvg_render_one_degenerate_axis_not_rejected :
    (halfDegenerateParams.svg_width ≤ 1/100) ∧
    (rsvg_render noLibRenderEnv initialLoaderState halfDegenerateParams).ret =
      NTSTATUS.STATUS_NOT_SUPPORTED := by
  norm_num [rsvg_render, render_done, load_librsvg, halfDegenerateParams,
    noLibRenderEnv, emptyEnv, initialLoaderState]

/-- C8 (corrected): with a non-null handle and pixel buffer, when BOTH
viewport dimensions are at or below 0.01, `rsvg_render` returns
`STATUS_INVALID_PARAMETER` with an empty trace and the loader state
untouched — before any library load or native call; in particular
svgWidth = svgHeight = 0.0 is rejected this way. -/
theorem rsvg_render_viewport_gate (renv : RenderEnv) (s : LoaderState)
    (p : RenderParams) (hh : p.handle = true) (hp : p.pixels = true)
    (hw : p.svg_width ≤ 1/100) (hg : p.svg_height ≤ 1/100) :
    rsvg_render renv s p =
      { ret := NTSTATUS.STATUS_INVALID_PARAMETER, state := s, calls := []
        fninit := true } := by
  unfold rsvg_render
  rw [hh, hp]
  rw [if_neg (by simp)]
  rw [if_pos ⟨hw, hg⟩]
  rfl

/-- C8 witness: the request with svgWidth = svgHeight = 0.0 is rejected
with `STATUS_INVALID_PARAMETER`, no native call and no load attempt. -/
theorem rsvg_render_viewport_gate_witness :
    rsvg_render fullRenderEnv initialLoaderState zeroViewportParams =
      { ret := NTSTATUS.STATUS_INVALID_PARAMETER, state := initialLoaderState
        calls := [], fninit := true } :=
  rsvg_render_viewport_gate fullRenderEnv initialLoaderState zeroViewportParams
    rfl rfl zeroViewportParams_below_threshold.1 zeroViewportParams_below_threshold.2

/-- C1 counterexample: for `scaleOutParams` the x-axis scale is
100 / 0.05 = 2000, outside (0, 1000]; `rsvg_render` does return
`STATUS_INVALID_PARAMETER`, but only after `cairo_image_surface_create_for_data`
and `cairo_create` have been called (and their teardown runs) — not with
zero native-library calls. -/
theorem rsvg_render_scale_reject_after_native_calls :
    ((scaleOutParams.width : ℚ) / scaleOutParams.svg_width > 1000) ∧
    (rsvg_render fullRenderEnv initialLoaderState scaleOutParams).ret =
      NTSTATUS.STATUS_INVALID_PARAMETER ∧
    NativeCall.cairo_image_surface_create_for_data ∈
      (rsvg_render fullRenderEnv initialLoaderState scaleOutParams).calls ∧
    NativeCall.cairo_create ∈
      (rsvg_render fullRenderEnv initialLoaderState scaleOutParams).calls ∧
    (rsvg_render fullRenderEnv initialLoaderState scaleOutParams).calls ≠ [] := by
  have hmain : rsvg_render fullRenderEnv initialLoaderState scaleOutParams =
      { ret := NTSTATUS.STATUS_INVALID_PARAMETER, state := bothLoadedState
        calls := [NativeCall.dlopenRsvg, NativeCall.dlopenCairo,
          NativeCall.cairo_image_surface_create_for_data, NativeCall.cairo_create,
          NativeCall.cairo_destroy, NativeCall.cairo_surface_destroy]
        fninit := true } := by
    norm_num [rsvg_render, render_done, load_librsvg, load_cairo, scaleOutParams,
      fullRenderEnv, fullEnv, initialLoaderState, rsvgLoadedState, bothLoadedState]
  refine ⟨scaleOutParams_scale_x_out, ?_, ?_, ?_, ?_⟩ <;> rw [hmain] <;> decide

/-- C1 (corrected): when every earlier gate passes, both libraries load,
and surface and context creation succeed, an out-of-range scale on either
axis makes `rsvg_render` return `STATUS_INVALID_PARAMETER` without ever
calling `cairo_scale` or `rsvg_handle_render_document`; but the drawing
surface and drawing context HAVE been created by then (and are then
destroyed by the teardown). -/
theorem rsvg_render_scale_gate (renv : RenderEnv) (s s1 s2 : LoaderState)
    (t1 t2 : List NativeCall) (p : RenderParams)
    (hh : p.handle = true) (hp : p.pixels = true)
    (hvp : ¬(p.svg_width ≤ 1/100 ∧ p.svg_height ≤ 1/100))
    (hdim : ¬(p.width = 0 ∨ p.height = 0 ∨ p.stride = 0))
    (hlr : load_librsvg renv.env s = (true, s1, t1))
    (hlc : load_cairo renv.env s1 = (true, s2, t2))
    (hrd : s2.p_rsvg_handle_render_document = true)
    (hsurf : renv.surface_ok = true) (hcr : renv.cr_ok = true)
    (hscale : (p.width : ℚ) / p.svg_width ≤ 0 ∨ (p.width : ℚ) / p.svg_width > 1000 ∨
      (p.height : ℚ) / p.svg_height ≤ 0 ∨ (p.height : ℚ) / p.svg_height > 1000) :
    rsvg_render renv s p =
      { ret := NTSTATUS.STATUS_INVALID_PARAMETER, state := s2
        calls := t1 ++ t2 ++
          [NativeCall.cairo_image_surface_create_for_data, NativeCall.cairo_create,
           NativeCall.cairo_destroy, NativeCall.cairo_surface_destroy]
        fninit := true } ∧
    NativeCall.cairo_scale ∉ (rsvg_render renv s p).calls ∧
    NativeCall.rsvg_handle_render_document ∉ (rsvg_render renv s p).calls := by
  have hmain : rsvg_render renv s p =
      { ret := NTSTATUS.STATUS_INVALID_PARAMETER, state := s2
        calls := t1 ++ t2 ++
          [NativeCall.cairo_image_surface_create_for_data, NativeCall.cairo_create,
           NativeCall.cairo_destroy, NativeCall.cairo_surface_destroy]
        fninit := true } := by
    unfold rsvg_render
    rw [hh, hp]
    rw [if_neg (by simp)]
    rw [if_neg hvp]
    rw [if_neg hdim]
    rw [hlr]
    dsimp only
    rw [hlc]
    dsimp only
    rw [hrd, hsurf, hcr]
    simp [render_done, hscale]
  refine ⟨hmain, ?_, ?_⟩
  · rw [hmain]
    intro hmem
    rcases List.mem_append.mp hmem with h12 | h3
    · rcases List.mem_append.mp h12 with h1 | h2
      · rcases mem_load_librsvg_trace renv.env s _ (by rw [hlr]; exact h1) with h | h <;>
          exact absurd h (by decide)
      · rcases mem_load_cairo_trace renv.env s1 _ (by rw [hlc]; exact h2) with h | h <;>
          exact absurd h (by decide)
    · exact absurd h3 (by decide)
  · rw [hmain]
    intro hmem
    rcases List.mem_append.mp hmem with h12 | h3
    · rcases List.mem_append.mp h12 with h1 | h2
      · rcases mem_load_librsvg_trace renv.env s _ (by rw [hlr]; exact h1) with h | h <;>
          exact absurd h (by decide)
      · rcases mem_load_cairo_trace renv.env s1 _ (by rw [hlc]; exact h2) with h | h <;>
          exact absurd h (by decide)
    · exact absurd h3 (by decide)

/-- C1 witness: the out-of-range request `scaleOutParams` in the all-good
environment is rejected at the scale gate after surface and context
creation, with no scale or render call. -/
theorem rsvg_render_scale_gate_witness :
    rsvg_render fullRenderEnv initialLoaderState scaleOutParams =
      { ret := NTSTATUS.STATUS_INVALID_PARAMETER, state := bothLoadedState
        calls := [NativeCall.dlopenRsvg] ++ [NativeCall.dlopenCairo] ++
          [NativeCall.cairo_image_surface_create_for_data, NativeCall.cairo_create,
           NativeCall.cairo_destroy, NativeCall.cairo_surface_destroy]
        fninit := true } ∧
    NativeCall.cairo_scale ∉
      (rsvg_render fullRenderEnv initialLoaderState scaleOutParams).calls ∧
    NativeCall.rsvg_handle_render_document ∉
      (rsvg_render fullRenderEnv initialLoaderState scaleOutParams).calls :=
  rsvg_render_scale_gate fullRenderEnv initialLoaderState rsvgLoadedState
    bothLoadedState [NativeCall.dlopenRsvg] [NativeCall.dlopenCairo] scaleOutParams
    rfl rfl scaleOutParams_viewport_passes (by decide)
    load_librsvg_full_eval load_cairo_full_eval rfl rfl rfl
    (Or.inr (Or.inl scaleOutParams_scale_x_out))

/-- Iterated AddRef adds N to the reference count and changes nothing
else. -/
theorem addRefN_refcount (N : ℕ) : ∀ d : Document,
    addRefN d N =
      { refcount := d.refcount + N, rsvg_handle := d.rsvg_handle
        factory := d.factory } := by
  induction N with
  | zero => intro d; rfl
  | succ n ih =>
    intro d
    show addRefN (d2d_svg_document_AddRef d).2 n = _
    rw [ih]
    simp [d2d_svg_document_AddRef]
    omega

/-- Performing exactly `refcount` releases on a live document frees it
exactly once (on the last release). -/
theorem releaseN_teardown_once (u : Bool) : ∀ (m : ℕ) (d : Document),
    d.refcount = m → 1 ≤ m → releaseN u (some d) m = 1 := by
  intro m
  induction m with
  | zero => intro d _ h; omega
  | succ k ih =>
    intro d hd _
    by_cases hk : k = 0
    · subst hk
      have h0 : d.refcount - 1 = 0 := by omega
      simp [releaseN, d2d_svg_document_Release, h0]
    · have hne : d.refcount - 1 ≠ 0 := by omega
      have hstep : releaseN u (some d) (k + 1) =
          releaseN u (some { d with refcount := d.refcount - 1 }) k := by
        show (if (d2d_svg_document_Release u d).heap_freed then 1 else 0) +
            releaseN u (d2d_svg_document_Release u d).document k = _
        simp [d2d_svg_document_Release, hne]
      rw [hstep]
      exact ih { d with refcount := d.refcount - 1 } (by simp; omega) (by omega)

/-- C4 (confirmed): AddRef returns `n+1`; Release returns `n-1`; an
AddRef followed by a Release restores the document (same count, no
teardown); Release frees the object exactly on the 1→0 transition, and
that teardown issues the native-free command (handle non-null, unixlib
available) and releases the factory reference; and, from a fresh
document with refcount 1, N AddRefs followed by N+1 Releases performs
exactly one teardown. -/
theorem d2d_svg_document_refcount_contract (u : Bool) (d : Document) (N : ℕ)
    (h1 : 1 ≤ d.refcount) :
    (d2d_svg_document_AddRef d).1 = d.refcount + 1 ∧
    (d2d_svg_document_Release u d).refcount = d.refcount - 1 ∧
    (d2d_svg_document_Release u (d2d_svg_document_AddRef d).2).refcount = d.refcount ∧
    (d2d_svg_document_Release u (d2d_svg_document_AddRef d).2).document = some d ∧
    (d2d_svg_document_Release u (d2d_svg_document_AddRef d).2).heap_freed = false ∧
    ((d2d_svg_document_Release u d).heap_freed = true ↔ d.refcount = 1) ∧
    (d.refcount = 1 →
      (d2d_svg_document_Release u d).rsvg_free_called = (d.rsvg_handle && u) ∧
      (d2d_svg_document_Release u d).factory_released = d.factory ∧
      (d2d_svg_document_Release u d).document = none) ∧
    (d.refcount = 1 → releaseN u (some (addRefN d N)) (N + 1) = 1) := by
  have hne : d.refcount ≠ 0 := by omega
  refine ⟨rfl, ?_, ?_, ?_, ?_, ?_, ?_, ?_⟩
  · by_cases h0 : d.refcount - 1 = 0
    all_goals simp [d2d_svg_document_Release, h0]
  · simp [d2d_svg_document_Release, d2d_svg_document_AddRef, hne]
  · simp [d2d_svg_document_Release, d2d_svg_document_AddRef, hne]
  · simp [d2d_svg_document_Release, d2d_svg_document_AddRef, hne]
  · by_cases h0 : d.refcount - 1 = 0
    all_goals simp [d2d_svg_document_Release, h0]
    all_goals omega
  · intro h
    have h0 : d.refcount - 1 = 0 := by omega
    simp [d2d_svg_document_Release, h0]
  · intro h
    refine releaseN_teardown_once u (N + 1) (addRefN d N) ?_ (by omega)
    rw [addRefN_refcount]
    simp [h]
    omega

/-- C4 witness: a fresh document (refcount 1, non-null handle and
factory), 2 AddRefs then 3 Releases: exactly one teardown. -/
theorem d2d_svg_document_refcount_contract_witness :
    releaseN true (some (addRefN sampleDoc 2)) (2 + 1) = 1 :=
  (d2d_svg_document_refcount_contract true sampleDoc 2 (by decide)).2.2.2.2.2.2.2 rfl

/-- Characterization of `rsvg_create_handle` when the librsvg load
fails. -/
theorem rsvg_create_handle_load_fail (ce : CreateEnvU) (s : LoaderState)
    (h : (load_librsvg ce.env s).1 = false) :
    rsvg_create_handle ce s =
      { status := NTSTATUS.STATUS_NOT_SUPPORTED, handle := false
        state := (load_librsvg ce.env s).2.1, calls := (load_librsvg ce.env s).2.2 } := by
  unfold rsvg_create_handle
  rcases hl : load_librsvg ce.env s with ⟨ok, s1, t1⟩
  rw [hl] at h
  dsimp only at h
  simp [h]

/-- Characterization of `rsvg_create_handle` when the load succeeds and
the parse fails. -/
theorem rsvg_create_handle_parse_fail (ce : CreateEnvU) (s : LoaderState)
    (h : (load_librsvg ce.env s).1 = true) (hp : ce.parse_ok = false) :
    rsvg_create_handle ce s =
      { status := NTSTATUS.STATUS_UNSUCCESSFUL, handle := false
        state := (load_librsvg ce.env s).2.1
        calls := (load_librsvg ce.env s).2.2 ++ [NativeCall.rsvg_handle_new_from_data] ++
          (if ce.parse_error_set then [NativeCall.g_error_free] else []) } := by
  unfold rsvg_create_handle
  rcases hl : load_librsvg ce.env s with ⟨ok, s1, t1⟩
  rw [hl] at h
  dsimp only at h
  simp [h, hp]

/-- Characterization of `rsvg_create_handle` when the load succeeds and
the parse succeeds. -/
theorem rsvg_create_handle_parse_ok (ce : CreateEnvU) (s : LoaderState)
    (h : (load_librsvg ce.env s).1 = true) (hp : ce.parse_ok = true) :
    rsvg_create_handle ce s =
      { status := NTSTATUS.STATUS_SUCCESS, handle := true
        state := (load_librsvg ce.env s).2.1
        calls := (load_librsvg ce.env s).2.2 ++ [NativeCall.rsvg_handle_new_from_data] } := by
  unfold rsvg_create_handle
  rcases hl : load_librsvg ce.env s with ⟨ok, s1, t1⟩
  rw [hl] at h
  dsimp only at h
  simp [h, hp]

/-- C6 (confirmed): `d2d_svg_document_create` leaks nothing. On every
failing path no document escapes and any native handle obtained was
released; the stream buffer, once allocated, is always freed; a failed
parse leaves the out handle null. When the parse fails with a GError set
the error object is freed immediately (only the status code crosses the
boundary), and when the wrapper allocation fails after a successful
parse, the fresh native handle is unreffed before `E_OUTOFMEMORY` is
returned. -/
theorem d2d_svg_document_create_no_leak (ce : CreateEnv) (s : LoaderState)
    (hinv : rsvgInv s) :
    ((d2d_svg_document_create ce s).hr ≠ HRESULT.S_OK →
      (d2d_svg_document_create ce s).document = none ∧
      ((d2d_svg_document_create ce s).handle_created = true →
        (d2d_svg_document_create ce s).handle_freed = true)) ∧
    ((d2d_svg_document_create ce s).buffer_allocated = true →
      (d2d_svg_document_create ce s).buffer_freed = true) ∧
    (ce.unix.parse_ok = false → (d2d_svg_document_create ce s).handle_created = false) ∧
    (ce.unixlib_handle = true → ce.stat_ok = true → ce.buffer_alloc_ok = true →
      ce.read_ok = true → (load_librsvg ce.unix.env s).1 = true →
      ce.unix.parse_ok = false →
      (d2d_svg_document_create ce s).hr = HRESULT.E_FAIL ∧
      (d2d_svg_document_create ce s).document = none ∧
      (ce.unix.parse_error_set = true →
        NativeCall.g_error_free ∈ (d2d_svg_document_create ce s).calls)) ∧
    (ce.unixlib_handle = true → ce.stat_ok = true → ce.buffer_alloc_ok = true →
      ce.read_ok = true → (load_librsvg ce.unix.env s).1 = true →
      ce.unix.parse_ok = true → ce.object_alloc_ok = false →
      (d2d_svg_document_create ce s).hr = HRESULT.E_OUTOFMEMORY ∧
      (d2d_svg_document_create ce s).document = none ∧
      NativeCall.g_object_unref ∈ (d2d_svg_document_create ce s).calls) := by
  cases hu : ce.unixlib_handle with
  | false => simp [d2d_svg_document_create, hu]
  | true =>
  cases hst : ce.stat_ok with
  | false => simp [d2d_svg_document_create, hu, hst]
  | true =>
  cases hba : ce.buffer_alloc_ok with
  | false => simp [d2d_svg_document_create, hu, hst, hba]
  | true =>
  cases hre : ce.read_ok with
  | false => simp [d2d_svg_document_create, hu, hst, hba, hre]
  | true =>
  cases hload : (load_librsvg ce.unix.env s).1 with
  | false =>
    have hr := rsvg_create_handle_load_fail ce.unix s hload
    simp [d2d_svg_document_create, hu, hst, hba, hre, hr, hload]
  | true =>
  cases hparse : ce.unix.parse_ok with
  | false =>
    have hr := rsvg_create_handle_parse_fail ce.unix s hload hparse
    cases hes : ce.unix.parse_error_set with
    | false =>
      simp [d2d_svg_document_create, hu, hst, hba, hre, hr, hes, hparse, hload]
    | true =>
      simp [d2d_svg_document_create, hu, hst, hba, hre, hr, hes, hparse, hload]
  | true =>
    obtain ⟨-, hgu, -, -⟩ := load_librsvg_success_bound ce.unix.env s hinv hload
    have hr := rsvg_create_handle_parse_ok ce.unix s hload hparse
    cases hoa : ce.object_alloc_ok with
    | false =>
      simp [d2d_svg_document_create, hu, hst, hba, hre, hr, hoa, hparse, hload,
        rsvg_free_handle, hgu]
    | true =>
      simp [d2d_svg_document_create, hu, hst, hba, hre, hr, hoa, hparse, hload]

/-- C6 witness: with everything available but a failing parse that sets a
GError, Create reports `E_FAIL`, returns no document, and has freed the
error object. -/
theorem d2d_svg_document_create_no_leak_witness :
    (d2d_svg_document_create parseFailEnv initialLoaderState).hr = HRESULT.E_FAIL ∧
    (d2d_svg_document_create parseFailEnv initialLoaderState).document = none ∧
    NativeCall.g_error_free ∈
      (d2d_svg_document_create parseFailEnv initialLoaderState).calls := by
  have h :=
    (d2d_svg_document_create_no_leak parseFailEnv initialLoaderState
      (by decide)).2.2.2.1 rfl rfl rfl rfl (by decide) rfl
  exact ⟨h.1, h.2.1, h.2.2 rfl⟩

end WineSVG
